import Mathlib

/-!
Verification of the renfound_v1 authentication and session-lifecycle
subsystem: a shallow embedding of the token authority
(`infrastructure/auth`), the user/session repository
(`infrastructure/persistence/postgres`), the service orchestrator
(`internal/usecase/user`), and the database-pool configuration step,
together with theorems about the claimed properties.

Modelling conventions:
- `time.Time` values and `time.Duration` values are Unix seconds (`Int`).
- `uuid.UUID` values are modelled abstractly as `Nat`.
- HMAC is treated as collision-free: a JWT signature verifies exactly under
  the key it was produced with, so a well-formed signed token is modelled by
  the structure `SignedToken` recording its algorithm, signing key and claim
  set, and signature verification is equality of keys.
- Nondeterministic choices a call makes (`time.Now`, `uuid.New`) are passed
  in explicitly through an `Env` value.
- The worker pool (`internal/utils/async`) decouples the session insert from
  the request: a service call returns, besides the caller-visible result and
  the store after its synchronous part, the session write handed to the
  pool (`none` when the bounded queue rejected the task); the write itself
  is applied later, if at all, by `runPendingSession`.
-/

deriving instance DecidableEq for Except

namespace Renfound

/-- JWT section of the configuration (`config.JWTConfig`): the two
independent signing secrets and the two lifetimes, in seconds. -/
structure JWTConfig where
  AccessSecret : String
  RefreshSecret : String
  AccessTTL : Int
  RefreshTTL : Int
deriving DecidableEq

/-- `auth.TelegramAuth`: the token authority, holding the JWT
configuration. -/
structure TelegramAuth where
  cfg : JWTConfig
deriving DecidableEq

/-- Model of the `google/uuid` string domain, as far as this program
observes it: a string is either the canonical rendering `u.String()` of some
UUID `u` (the rendering is injective), or a string that does not parse as a
UUID (`malformed`, tagged to keep distinct such strings distinct). -/
inductive UuidStr where
  | canonical (u : Nat)
  | malformed (tag : Nat)
deriving DecidableEq

/-- Model of `uuid.Parse`: succeeds exactly on canonical renderings and
recovers the rendered UUID. -/
def uuidParse : UuidStr → Option Nat
  | .canonical u => some u
  | .malformed _ => none

/-- JWT signing algorithms, as far as the keyfunc distinguishes them: the
HMAC family (`HS256`, used by both generators) versus anything else. -/
inductive Alg where
  | HS256
  | RS256
deriving DecidableEq

/-- The keyfunc test `token.Method.(*jwt.SigningMethodHMAC)`. -/
def Alg.isHMAC : Alg → Bool
  | .HS256 => true
  | .RS256 => false

/-- The claim set used by the token authority (`jwt.MapClaims` restricted to
the keys this program writes and reads). A key absent from the token is
`none`; `user_id` strings are modelled through `UuidStr`, the `jti` UUID as a
`Nat`, and the numeric-date claims as Unix seconds. -/
structure MapClaims where
  user_id : Option UuidStr := none
  telegram_id : Option Int := none
  exp : Option Int := none
  iat : Option Int := none
  jti : Option Nat := none
  typ : Option String := none
deriving DecidableEq

/-- A well-formed signed JWT: `secret` is the HMAC key whose MAC the
signature matches (HMAC collision-freeness makes signature verification an
equality of keys). -/
structure SignedToken where
  alg : Alg
  secret : String
  claims : MapClaims
deriving DecidableEq

/-- A token string: either the serialization of a well-formed signed JWT
(serialization treated as injective), or any other string (`raw`, tagged to
keep distinct strings distinct). -/
inductive TokenStr where
  | jwt (tok : SignedToken)
  | raw (tag : Nat)
deriving DecidableEq

/-- Outcomes of `jwt.Parse` short of a successful, valid token. -/
inductive JwtErr where
  | malformed
  | keyfuncRejected
  | badSignature
  | expired
deriving DecidableEq

/-- Model of `jwt.Parse` with a keyfunc that rejects non-HMAC signing
methods and returns `secret`. Order follows golang-jwt v5: the keyfunc runs
first, then signature verification, then registered-claims validation — so
an expiry error is only ever reported for a correctly signed token. -/
def jwtParse (t : TokenStr) (secret : String) (now : Int) : Except JwtErr SignedToken :=
  match t with
  | .raw _ => .error .malformed
  | .jwt tok =>
    if ¬ tok.alg.isHMAC then .error .keyfuncRejected
    else if tok.secret ≠ secret then .error .badSignature
    else
      match tok.claims.exp with
      | some e => if e < now then .error .expired else .ok tok
      | none => .ok tok

/-- The sentinel errors of `internal/domain/models/errors.go` that the core
flows surface. -/
inductive AuthError where
  | ErrInvalidInitData
  | ErrInvalidToken
  | ErrExpiredToken
  | ErrInternalServer
  | ErrUserNotFound
  | ErrSessionNotFound
deriving DecidableEq

/-- `models.Claims`: the decoded payload returned by the access-token
validator. -/
structure Claims where
  UserID : UuidStr
  TelegramID : Int
deriving DecidableEq

/-- `auth.generateAccessToken`: signs `{user_id, telegram_id, exp = now +
AccessTTL, iat = now, type = "access"}` with the access secret under
HS256. -/
def generateAccessToken (a : TelegramAuth) (userID : Nat) (telegramID : Int) (now : Int) : SignedToken :=
  { alg := .HS256
    secret := a.cfg.AccessSecret
    claims := { user_id := some (.canonical userID)
                telegram_id := some telegramID
                exp := some (now + a.cfg.AccessTTL)
                iat := some now
                typ := some "access" } }

/-- `auth.generateRefreshToken`: signs `{user_id, exp = now + RefreshTTL,
iat = now, jti = fresh UUID, type = "refresh"}` with the refresh secret
under HS256. -/
def generateRefreshToken (a : TelegramAuth) (userID : Nat) (jti : Nat) (now : Int) : SignedToken :=
  { alg := .HS256
    secret := a.cfg.RefreshSecret
    claims := { user_id := some (.canonical userID)
                exp := some (now + a.cfg.RefreshTTL)
                iat := some now
                jti := some jti
                typ := some "refresh" } }

/-- `auth.TelegramAuth.ValidateAccessToken`: parse against the access
secret; a wrapped `jwt.ErrTokenExpired` maps to `ErrExpiredToken`, every
other parse failure to `ErrInvalidToken`; then the `user_id` and
`telegram_id` claims are extracted (a failed type assertion is
`ErrInvalidToken`). -/
def ValidateAccessToken (a : TelegramAuth) (t : TokenStr) (now : Int) : Except AuthError Claims :=
  match jwtParse t a.cfg.AccessSecret now with
  | .error .expired => .error .ErrExpiredToken
  | .error _ => .error .ErrInvalidToken
  | .ok tok =>
    match tok.claims.user_id with
    | none => .error .ErrInvalidToken
    | some uid =>
      match tok.claims.telegram_id with
      | none => .error .ErrInvalidToken
      | some tid => .ok { UserID := uid, TelegramID := tid }

/-- `auth.TelegramAuth.ValidateRefreshToken`: parse against the refresh
secret with the same error discipline, then extract the `user_id` claim. -/
def ValidateRefreshToken (a : TelegramAuth) (t : TokenStr) (now : Int) : Except AuthError UuidStr :=
  match jwtParse t a.cfg.RefreshSecret now with
  | .error .expired => .error .ErrExpiredToken
  | .error _ => .error .ErrInvalidToken
  | .ok tok =>
    match tok.claims.user_id with
    | none => .error .ErrInvalidToken
    | some uid => .ok uid

/-- `models.Tokens`: the pair returned to the caller. -/
structure Tokens where
  AccessToken : TokenStr
  RefreshToken : TokenStr
deriving DecidableEq

/-- `auth.TelegramAuth.GenerateTokens`: issue the access and refresh tokens
(signing with an HMAC key never fails, so the Go error paths are
unreachable in the model). -/
def GenerateTokens (a : TelegramAuth) (userID : Nat) (telegramID : Int) (jti : Nat) (now : Int) : Tokens :=
  { AccessToken := .jwt (generateAccessToken a userID telegramID now)
    RefreshToken := .jwt (generateRefreshToken a userID jti now) }

/-- The user sub-object of a parsed init-data payload (`initdata.User`,
restricted to the fields this program reads). -/
structure TgUser where
  id : Int
  firstName : String
  lastName : String
  username : String
  photoURL : String
deriving DecidableEq

/-- The Go zero value of `initdata.User`: what `data.User` holds when the
payload carries no `user` sub-object. -/
def TgUser.zero : TgUser :=
  { id := 0, firstName := "", lastName := "", username := "", photoURL := "" }

/-- Model of an init-data payload as observed through the external
`init-data-golang` verifier: the outcome of `initdata.Validate` (signature
and 24-hour age window) and of `initdata.Parse`, the `user` sub-object if
the payload carries one (`none` when absent — Go decoding then leaves
`data.User` zero-valued), and the embedded `auth_date`. -/
structure InitData where
  sigValid : Bool
  parseOk : Bool
  user : Option TgUser
  authDate : Int
deriving DecidableEq

/-- `auth.TelegramUser`: the identity record `ValidateInitData` returns. -/
structure TelegramUser where
  ID : Int
  FirstName : String
  LastName : String
  Username : String
  PhotoURL : String
  AuthDate : Int
deriving DecidableEq

/-- The Go expression `&data.User == nil` (auth.go, inside
`ValidateInitData`): taking the address of a struct field never yields nil,
so this comparison is constantly false whatever the payload holds. -/
def addrOfDataUserEqNil (_ : InitData) : Bool := false

/-- `auth.TelegramAuth.ValidateInitData`: run `initdata.Validate`, then
`initdata.Parse` (each failure mapped to `ErrInvalidInitData`), then the
(ineffective) `&data.User == nil` guard, then copy the user fields and
`AuthDate` into a `TelegramUser`. -/
def ValidateInitData (_a : TelegramAuth) (d : InitData) : Except AuthError TelegramUser :=
  if ¬ d.sigValid then .error .ErrInvalidInitData
  else if ¬ d.parseOk then .error .ErrInvalidInitData
  else
    let dataUser := d.user.getD TgUser.zero
    if addrOfDataUserEqNil d then .error .ErrInvalidInitData
    else .ok { ID := dataUser.id
               FirstName := dataUser.firstName
               LastName := dataUser.lastName
               Username := dataUser.username
               PhotoURL := dataUser.photoURL
               AuthDate := d.authDate }

/-- `models.User`: the persisted user row. -/
structure User where
  ID : Nat
  TelegramID : Int
  Username : String
  FirstName : String
  LastName : String
  PhotoURL : String
  AuthDate : Int
  CreatedAt : Int
  UpdatedAt : Int
deriving DecidableEq

/-- `models.NewUser`, with the `uuid.New()` and `time.Now()` choices passed
in explicitly. -/
def NewUser (id : Nat) (telegramID : Int) (username firstName lastName photoURL : String)
    (authDate : Int) (now : Int) : User :=
  { ID := id
    TelegramID := telegramID
    Username := username
    FirstName := firstName
    LastName := lastName
    PhotoURL := photoURL
    AuthDate := authDate
    CreatedAt := now
    UpdatedAt := now }

/-- `models.Session`: the persisted session row backing one refresh
token. -/
structure Session where
  ID : Nat
  UserID : Nat
  RefreshToken : TokenStr
  UserAgent : String
  IPAddress : String
  ExpiresAt : Int
  CreatedAt : Int
  UpdatedAt : Int
deriving DecidableEq

/-- `models.NewSession`, with the `uuid.New()` and `time.Now()` choices
passed in explicitly. -/
def NewSession (id : Nat) (userID : Nat) (refreshToken : TokenStr) (userAgent ipAddress : String)
    (ttl : Int) (now : Int) : Session :=
  { ID := id
    UserID := userID
    RefreshToken := refreshToken
    UserAgent := userAgent
    IPAddress := ipAddress
    ExpiresAt := now + ttl
    CreatedAt := now
    UpdatedAt := now }

/-- The relational store the repository operates on: the `users` and
`sessions` tables as lists of rows. -/
structure DB where
  users : List User
  sessions : List Session
deriving DecidableEq

/-- Repository-level failures: the two "not found" sentinels versus any
other storage failure. -/
inductive RepoErr where
  | userNotFound
  | sessionNotFound
  | storage
deriving DecidableEq

/-- `UserRepositoryImpl.GetByTelegramID`: `SELECT ... WHERE telegram_id =
$1` through `QueryRow` (first matching row); no row is
`ErrUserNotFound`. -/
def getByTelegramID (db : DB) (telegramID : Int) : Except RepoErr User :=
  match db.users.find? (fun u => u.TelegramID == telegramID) with
  | some u => .ok u
  | none => .error .userNotFound

/-- `UserRepositoryImpl.Create`: `INSERT INTO users`; the `id` primary key
and the `telegram_id UNIQUE` constraint make a duplicate insert a storage
failure. -/
def createUser (db : DB) (u : User) : Except RepoErr DB :=
  if db.users.any (fun x => x.ID == u.ID || x.TelegramID == u.TelegramID) then .error .storage
  else .ok { db with users := db.users ++ [u] }

/-- `UserRepositoryImpl.Update`: `UPDATE users SET username, first_name,
last_name, photo_url, auth_date, updated_at = NOW() WHERE id = $6`; zero
rows affected is `ErrUserNotFound`. -/
def updateUser (db : DB) (u : User) (now : Int) : Except RepoErr DB :=
  if db.users.any (fun x => x.ID == u.ID) then
    .ok { db with users := db.users.map (fun x =>
      if x.ID == u.ID then
        { x with Username := u.Username
                 FirstName := u.FirstName
                 LastName := u.LastName
                 PhotoURL := u.PhotoURL
                 AuthDate := u.AuthDate
                 UpdatedAt := now }
      else x) }
  else .error .userNotFound

/-- `UserRepositoryImpl.GetByID`: `SELECT ... WHERE id = $1`; no row is
`ErrUserNotFound`. -/
def getByID (db : DB) (id : Nat) : Except RepoErr User :=
  match db.users.find? (fun u => u.ID == id) with
  | some u => .ok u
  | none => .error .userNotFound

/-- `UserRepositoryImpl.CreateSession`: `INSERT INTO sessions`; a duplicate
primary key is a storage failure (the schema places no uniqueness
constraint on `refresh_token`). -/
def createSession (db : DB) (s : Session) : Except RepoErr DB :=
  if db.sessions.any (fun x => x.ID == s.ID) then .error .storage
  else .ok { db with sessions := db.sessions ++ [s] }

/-- `UserRepositoryImpl.GetSessionByToken`: `SELECT ... WHERE refresh_token
= $1` through `QueryRow` (first matching row); no row is
`ErrSessionNotFound`. -/
def getSessionByToken (db : DB) (refreshToken : TokenStr) : Except RepoErr Session :=
  match db.sessions.find? (fun s => s.RefreshToken == refreshToken) with
  | some s => .ok s
  | none => .error .sessionNotFound

/-- `UserRepositoryImpl.DeleteSession`: `DELETE FROM sessions WHERE id =
$1`; zero rows affected is `ErrSessionNotFound`. -/
def deleteSession (db : DB) (id : Nat) : Except RepoErr DB :=
  if db.sessions.any (fun s => s.ID == id) then
    .ok { db with sessions := db.sessions.filter (fun s => s.ID != id) }
  else .error .sessionNotFound

/-- `UserRepositoryImpl.DeleteUserSessions`: `DELETE FROM sessions WHERE
user_id = $1`; never an error, whatever the number of rows affected. -/
def deleteUserSessions (db : DB) (userID : Nat) : DB :=
  { db with sessions := db.sessions.filter (fun s => s.UserID != userID) }

/-- The nondeterministic choices one service call makes — `time.Now()` and
the `uuid.New()` draws for a created user row, a created session row and
the refresh token's `jti` — passed in explicitly. -/
structure Env where
  now : Int
  freshUserId : Nat
  freshSessionId : Nat
  freshJti : Nat
deriving DecidableEq

/-- Outcome of one service call: the caller-visible result, the store after
the call's synchronous part, and the session write handed to the worker
pool (`none` when the bounded queue rejected the task — the code discards
`Submit`'s boolean, so acceptance can only ever affect this field). -/
structure SvcOut (α : Type) where
  result : Except AuthError α
  db : DB
  pending : Option Session
deriving DecidableEq

/-- The shared tail of the two token-issuing flows (`AuthWithTelegram`
lines 80–105, `RefreshTokens` lines 158–183): generate the token pair,
build the session row for the new refresh token, hand its insert to the
worker pool, and return the pair synchronously. -/
def issueTokensAndQueueSession (a : TelegramAuth) (db1 : DB) (userID : Nat) (telegramID : Int)
    (userAgent ipAddress : String) (e : Env) (accepted : Bool) : SvcOut Tokens :=
  let tokens := GenerateTokens a userID telegramID e.freshJti e.now
  let session := NewSession e.freshSessionId userID tokens.RefreshToken userAgent ipAddress
    a.cfg.RefreshTTL e.now
  { result := .ok tokens, db := db1, pending := if accepted then some session else none }

/-- `ServiceImpl.AuthWithTelegram`: verify the init data; look the user up
by Telegram ID and create it (`models.NewUser`) when absent, otherwise
overwrite the display fields and update the row; then issue tokens and
queue the session insert. Storage failures other than the not-found
sentinel collapse to `ErrInternalServer`. -/
def AuthWithTelegram (a : TelegramAuth) (db : DB) (initData : InitData)
    (userAgent ipAddress : String) (e : Env) (accepted : Bool) : SvcOut Tokens :=
  match ValidateInitData a initData with
  | .error err => { result := .error err, db := db, pending := none }
  | .ok telegramUser =>
    match getByTelegramID db telegramUser.ID with
    | .error .userNotFound =>
      let user := NewUser e.freshUserId telegramUser.ID telegramUser.Username
        telegramUser.FirstName telegramUser.LastName telegramUser.PhotoURL
        telegramUser.AuthDate e.now
      match createUser db user with
      | .error _ => { result := .error .ErrInternalServer, db := db, pending := none }
      | .ok db1 =>
        issueTokensAndQueueSession a db1 user.ID user.TelegramID userAgent ipAddress e accepted
    | .error _ => { result := .error .ErrInternalServer, db := db, pending := none }
    | .ok found =>
      let user := { found with Username := telegramUser.Username
                               FirstName := telegramUser.FirstName
                               LastName := telegramUser.LastName
                               PhotoURL := telegramUser.PhotoURL
                               AuthDate := telegramUser.AuthDate }
      match updateUser db user e.now with
      | .error _ => { result := .error .ErrInternalServer, db := db, pending := none }
      | .ok db1 =>
        issueTokensAndQueueSession a db1 user.ID user.TelegramID userAgent ipAddress e accepted

/-- `ServiceImpl.RefreshTokens`: validate the refresh token; parse the
`user_id` claim as a UUID (failure is `ErrInvalidToken`); fetch the session
by token value (not found is remapped to `ErrInvalidToken`); check the
session's owner against the token's claim; fetch the user (not found is
`ErrInvalidToken`); delete the old session row (a not-found is tolerated,
any other failure is `ErrInternalServer`); then issue tokens and queue the
new session insert. -/
def RefreshTokens (a : TelegramAuth) (db : DB) (refreshToken : TokenStr)
    (userAgent ipAddress : String) (e : Env) (accepted : Bool) : SvcOut Tokens :=
  match ValidateRefreshToken a refreshToken e.now with
  | .error err => { result := .error err, db := db, pending := none }
  | .ok userIDStr =>
    match uuidParse userIDStr with
    | none => { result := .error .ErrInvalidToken, db := db, pending := none }
    | some userID =>
      match getSessionByToken db refreshToken with
      | .error .sessionNotFound => { result := .error .ErrInvalidToken, db := db, pending := none }
      | .error _ => { result := .error .ErrInternalServer, db := db, pending := none }
      | .ok session =>
        if session.UserID != userID then
          { result := .error .ErrInvalidToken, db := db, pending := none }
        else
          match getByID db userID with
          | .error .userNotFound => { result := .error .ErrInvalidToken, db := db, pending := none }
          | .error _ => { result := .error .ErrInternalServer, db := db, pending := none }
          | .ok user =>
            match deleteSession db session.ID with
            | .error .sessionNotFound =>
              issueTokensAndQueueSession a db user.ID user.TelegramID userAgent ipAddress e accepted
            | .error _ => { result := .error .ErrInternalServer, db := db, pending := none }
            | .ok db1 =>
              issueTokensAndQueueSession a db1 user.ID user.TelegramID userAgent ipAddress e accepted

/-- `ServiceImpl.Logout`: fetch the session by token value; absence is an
already-logged-out no-op (success); otherwise delete it synchronously,
tolerating a not-found on the delete. -/
def Logout (db : DB) (refreshToken : TokenStr) : Except AuthError Unit × DB :=
  match getSessionByToken db refreshToken with
  | .error .sessionNotFound => (.ok (), db)
  | .error _ => (.error .ErrInternalServer, db)
  | .ok session =>
    match deleteSession db session.ID with
    | .error .sessionNotFound => (.ok (), db)
    | .error _ => (.error .ErrInternalServer, db)
    | .ok db1 => (.ok (), db1)

/-- The worker-pool task a service call queued: run the session insert
against the store; a failure is logged and dropped, never retried or
surfaced (the store is left unchanged). -/
def runPendingSession (db : DB) (p : Option Session) : DB :=
  match p with
  | none => db
  | some s =>
    match createSession db s with
    | .ok db1 => db1
    | .error _ => db

/-- The pool fields `NewDatabase` assigns (db.go lines 26–31), durations in
seconds. -/
structure PoolConfig where
  MaxConns : Int
  MaxConnLifetime : Int
  MaxConnIdleTime : Int
  HealthCheckPeriod : Int
deriving DecidableEq

/-- The pool-configuration step of `postgres.NewDatabase`, applied to the
config produced by `pgxpool.ParseConfig`: the five assignments of db.go
lines 27–31 in source order, including both assignments to `MaxConns`. -/
def configurePool (parsed : PoolConfig) : PoolConfig :=
  let c := { parsed with MaxConns := 25 }
  let c := { c with MaxConns := 5 }
  let c := { c with MaxConnLifetime := 3600 }
  let c := { c with MaxConnIdleTime := 30 * 60 }
  { c with HealthCheckPeriod := 60 }

/-- A filter with a singleton result pins down the first match of `find?`. -/
theorem find?_of_filter_eq_singleton {α : Type} (p : α → Bool) (l : List α) (a : α)
    (h : l.filter p = [a]) : l.find? p = some a := by
  induction l with
  | nil => simp at h
  | cons x xs ih =>
    rw [List.filter_cons] at h
    by_cases hx : p x
    · simp only [hx, if_true] at h
      rw [List.cons.injEq] at h
      rw [List.find?_cons_of_pos _ hx, h.1]
    · simp only [hx, if_false, Bool.false_eq_true, if_neg] at h
      rw [List.find?_cons_of_neg _ hx]
      exact ih h

/-- A filter with a singleton result puts its element in the list. -/
theorem mem_of_filter_eq_singleton {α : Type} (p : α → Bool) (l : List α) (a : α)
    (h : l.filter p = [a]) : a ∈ l := by
  have ha : a ∈ l.filter p := by rw [h]; exact List.mem_singleton_self a
  exact (List.mem_filter.mp ha).1

/-- A filter with a singleton result makes the predicate single-valued on
the list. -/
theorem eq_of_pred_of_filter_eq_singleton {α : Type} (p : α → Bool) (l : List α) (a x : α)
    (h : l.filter p = [a]) (hx : x ∈ l) (hp : p x = true) : x = a := by
  have hmem : x ∈ l.filter p := List.mem_filter.mpr ⟨hx, hp⟩
  rw [h] at hmem
  simpa using hmem

/-- A fixed token authority for concrete evaluations: distinct secrets and
the default lifetimes (15 minutes, 7 days) in seconds. -/
def sampleAuth : TelegramAuth :=
  ⟨{ AccessSecret := "access-secret", RefreshSecret := "refresh-secret",
     AccessTTL := 900, RefreshTTL := 604800 }⟩

/-- Claim C9: in `NewDatabase`'s pool-configuration step, `MaxConns` is
assigned twice in sequence and the second assignment overrides the first:
whatever `pgxpool.ParseConfig` produced, the effective connection-pool
ceiling afterwards is 5, not 25. -/
theorem newDatabase_maxConns_assigned_twice (parsed : PoolConfig) :
    (configurePool parsed).MaxConns = 5 ∧ (configurePool parsed).MaxConns ≠ 25 := by
  constructor
  · rfl
  · intro h
    simp [configurePool] at h

/-- Claim C4 (refuted by the code): a payload that passes signature
verification and parsing but carries no user sub-object is *accepted* by
`ValidateInitData`, which returns a zero-valued identity instead of the
invalid-init-data error — the guard `&data.User == nil` compares the
address of a struct field to nil and is therefore constantly false. -/
theorem validateInitData_missing_user_returns_zero_identity :
    ValidateInitData sampleAuth
      { sigValid := true, parseOk := true, user := none, authDate := 1700000000 } =
      .ok { ID := 0, FirstName := "", LastName := "", Username := "", PhotoURL := "",
            AuthDate := 1700000000 } := by
  rfl

/-- Claim C2: when the access and refresh signing secrets differ, a token
issued by the access-token generator is rejected by `ValidateRefreshToken`
and a token issued by the refresh-token generator is rejected by
`ValidateAccessToken`, whatever the validation time — the signature check
against the other class's secret fails before anything else is looked
at. -/
theorem access_refresh_tokens_never_mutually_valid
    (a : TelegramAuth) (userID : Nat) (telegramID : Int) (jti : Nat) (issuedAt valNow : Int)
    (hsec : a.cfg.AccessSecret ≠ a.cfg.RefreshSecret) :
    ValidateRefreshToken a (.jwt (generateAccessToken a userID telegramID issuedAt)) valNow
      = .error .ErrInvalidToken ∧
    ValidateAccessToken a (.jwt (generateRefreshToken a userID jti issuedAt)) valNow
      = .error .ErrInvalidToken := by
  constructor
  · simp [ValidateRefreshToken, jwtParse, generateAccessToken, Alg.isHMAC, hsec]
  · simp [ValidateAccessToken, jwtParse, generateRefreshToken, Alg.isHMAC, Ne.symm hsec]

/-- Witness for C2 at a concrete authority with distinct secrets. -/
theorem access_refresh_tokens_never_mutually_valid_witness :
    ValidateRefreshToken sampleAuth (.jwt (generateAccessToken sampleAuth 1 42 0)) 0
      = .error .ErrInvalidToken ∧
    ValidateAccessToken sampleAuth (.jwt (generateRefreshToken sampleAuth 1 7 0)) 0
      = .error .ErrInvalidToken :=
  access_refresh_tokens_never_mutually_valid sampleAuth 1 42 7 0 0 (by decide)

/-- Claim C5: issuing an access token and immediately validating it
succeeds and recovers exactly the issued (userID, telegramID) pair, for
any nonnegative access lifetime. -/
theorem validateAccessToken_roundtrip
    (a : TelegramAuth) (userID : Nat) (telegramID : Int) (now : Int)
    (httl : 0 ≤ a.cfg.AccessTTL) :
    ValidateAccessToken a (.jwt (generateAccessToken a userID telegramID now)) now
      = .ok { UserID := .canonical userID, TelegramID := telegramID } := by
  have hexp : ¬ (now + a.cfg.AccessTTL < now) := by omega
  simp [ValidateAccessToken, jwtParse, generateAccessToken, Alg.isHMAC, hexp]

/-- Witness for C5 at a concrete user and time. -/
theorem validateAccessToken_roundtrip_witness :
    ValidateAccessToken sampleAuth (.jwt (generateAccessToken sampleAuth 3 42 1000)) 1000
      = .ok { UserID := .canonical 3, TelegramID := 42 } :=
  validateAccessToken_roundtrip sampleAuth 3 42 1000 (by decide)

/-- Claim C6: a correctly signed HS256 token whose `exp` claim lies in the
past is rejected with `ErrExpiredToken` — not `ErrInvalidToken` — by the
validator matching its signing secret: `ValidateAccessToken` for a token
signed with the access secret, `ValidateRefreshToken` for one signed with
the refresh secret. -/
theorem expired_token_yields_ErrExpiredToken
    (a : TelegramAuth) (tok : SignedToken) (ex now : Int)
    (halg : tok.alg = .HS256) (hexp : tok.claims.exp = some ex) (hpast : ex < now) :
    (tok.secret = a.cfg.AccessSecret →
      ValidateAccessToken a (.jwt tok) now = .error .ErrExpiredToken) ∧
    (tok.secret = a.cfg.RefreshSecret →
      ValidateRefreshToken a (.jwt tok) now = .error .ErrExpiredToken) := by
  constructor <;> intro hs <;>
    simp [ValidateAccessToken, ValidateRefreshToken, jwtParse, halg, hexp, hpast, hs,
      Alg.isHMAC]

/-- Witness for C6: a correctly signed access token that expired five
seconds before validation time. -/
theorem expired_token_yields_ErrExpiredToken_witness :
    ValidateAccessToken sampleAuth
      (.jwt { alg := .HS256, secret := "access-secret",
              claims := { user_id := some (.canonical 1), telegram_id := some 42,
                          exp := some (-5), iat := some (-905), typ := some "access" } }) 0
      = .error .ErrExpiredToken :=
  (expired_token_yields_ErrExpiredToken sampleAuth
    { alg := .HS256, secret := "access-secret",
      claims := { user_id := some (.canonical 1), telegram_id := some 42,
                  exp := some (-5), iat := some (-905), typ := some "access" } }
    (-5) 0 rfl rfl (by decide)).1 rfl

/-- Claim C8: `Logout` with a token value for which no session row exists —
including values that were never issued — returns success and leaves the
store unchanged. -/
theorem logout_unknown_token_is_noop (db : DB) (t : TokenStr)
    (h : ∀ s ∈ db.sessions, s.RefreshToken ≠ t) :
    Logout db t = (.ok (), db) := by
  have hf : db.sessions.find? (fun s => s.RefreshToken == t) = none := by
    rw [List.find?_eq_none]
    intro x hx
    simpa using h x hx
  simp [Logout, getSessionByToken, hf]

/-- Witness for C8: a never-issued raw token value against a store holding
an unrelated session. -/
theorem logout_unknown_token_is_noop_witness :
    Logout
      { users := [],
        sessions := [{ ID := 1, UserID := 2, RefreshToken := .raw 0, UserAgent := "ua",
                       IPAddress := "1.2.3.4", ExpiresAt := 100, CreatedAt := 0,
                       UpdatedAt := 0 }] }
      (.raw 5)
    = (.ok (),
       { users := [],
         sessions := [{ ID := 1, UserID := 2, RefreshToken := .raw 0, UserAgent := "ua",
                        IPAddress := "1.2.3.4", ExpiresAt := 100, CreatedAt := 0,
                        UpdatedAt := 0 }] }) :=
  logout_unknown_token_is_noop _ _ (by decide)

/-- Claim C10: a refresh token that passes signature and expiry validation
but whose `user_id` claim does not parse as a UUID is rejected by
`RefreshTokens` with `ErrInvalidToken` before the session store is
consulted: the store comes back unchanged and no session write is queued,
so no session is fetched, deleted or created and no tokens are issued. -/
theorem refreshTokens_bad_uuid_rejected_before_store
    (a : TelegramAuth) (db : DB) (tok : SignedToken) (tag : Nat)
    (ua ip : String) (e : Env) (accepted : Bool)
    (halg : tok.alg = .HS256) (hsec : tok.secret = a.cfg.RefreshSecret)
    (hexp : ∀ ex, tok.claims.exp = some ex → ¬ ex < e.now)
    (huid : tok.claims.user_id = some (.malformed tag)) :
    RefreshTokens a db (.jwt tok) ua ip e accepted =
      { result := .error .ErrInvalidToken, db := db, pending := none } := by
  have hval : ValidateRefreshToken a (.jwt tok) e.now = .ok (.malformed tag) := by
    unfold ValidateRefreshToken jwtParse
    cases hE : tok.claims.exp with
    | none => simp [halg, hsec, Alg.isHMAC, huid, hE]
    | some ex => simp [halg, hsec, Alg.isHMAC, huid, hE, hexp ex hE]
  simp [RefreshTokens, hval, uuidParse]

/-- A well-signed, unexpired refresh token whose `user_id` claim is not a
UUID rendering. -/
def badUuidToken : SignedToken :=
  { alg := .HS256
    secret := "refresh-secret"
    claims := { user_id := some (.malformed 3), exp := some 100, iat := some 0,
                jti := some 9, typ := some "refresh" } }

/-- A store holding one session row whose token value is the serialization
of `badUuidToken`. -/
def badUuidTokenDB : DB :=
  { users := []
    sessions := [{ ID := 1, UserID := 2, RefreshToken := .jwt badUuidToken, UserAgent := "ua",
                   IPAddress := "1.2.3.4", ExpiresAt := 100, CreatedAt := 0, UpdatedAt := 0 }] }

/-- Witness for C10: a well-signed, unexpired refresh token carrying a
non-UUID `user_id`, against a store holding a session for that very token
value — the call still never touches it. -/
theorem refreshTokens_bad_uuid_rejected_before_store_witness :
    RefreshTokens sampleAuth badUuidTokenDB (.jwt badUuidToken) "ua" "1.2.3.4"
      { now := 0, freshUserId := 0, freshSessionId := 0, freshJti := 0 } true =
    { result := .error .ErrInvalidToken, db := badUuidTokenDB, pending := none } :=
  refreshTokens_bad_uuid_rejected_before_store sampleAuth badUuidTokenDB badUuidToken 3
    "ua" "1.2.3.4" { now := 0, freshUserId := 0, freshSessionId := 0, freshJti := 0 } true
    rfl rfl (by intro ex hx; simp [badUuidToken] at hx; subst hx; decide) rfl

/-- Claim C3: whenever credential verification succeeds and the user
lookup-or-create step succeeds, `AuthWithTelegram` returns the token pair
with no error, and the same pair whether or not the worker pool accepted
the session-persistence task — the code discards `Submit`'s boolean, the
queued insert runs only after the result is already fixed, and its failure
is logged and dropped, so the persistence outcome never reaches the
caller. -/
theorem authWithTelegram_result_independent_of_persistence
    (a : TelegramAuth) (db : DB) (d : InitData) (ua ip : String) (e : Env)
    (tu : TelegramUser)
    (hv : ValidateInitData a d = .ok tu)
    (hbranch :
      (getByTelegramID db tu.ID = .error .userNotFound ∧
        ∃ db1, createUser db (NewUser e.freshUserId tu.ID tu.Username tu.FirstName
          tu.LastName tu.PhotoURL tu.AuthDate e.now) = .ok db1) ∨
      (∃ found, getByTelegramID db tu.ID = .ok found ∧
        ∃ db1, updateUser db
          { found with
              Username := tu.Username, FirstName := tu.FirstName,
              LastName := tu.LastName, PhotoURL := tu.PhotoURL,
              AuthDate := tu.AuthDate }
          e.now = .ok db1)) :
    ∃ toks : Tokens, ∀ accepted : Bool,
      (AuthWithTelegram a db d ua ip e accepted).result = .ok toks := by
  rcases hbranch with ⟨hnf, db1, hcr⟩ | ⟨found, hfound, db1, hupd⟩
  · refine ⟨GenerateTokens a
      (NewUser e.freshUserId tu.ID tu.Username tu.FirstName tu.LastName tu.PhotoURL
        tu.AuthDate e.now).ID
      (NewUser e.freshUserId tu.ID tu.Username tu.FirstName tu.LastName tu.PhotoURL
        tu.AuthDate e.now).TelegramID
      e.freshJti e.now, fun accepted => ?_⟩
    simp [AuthWithTelegram, hv, hnf, hcr, issueTokensAndQueueSession]
  · refine ⟨GenerateTokens a found.ID found.TelegramID e.freshJti e.now, fun accepted => ?_⟩
    simp [AuthWithTelegram, hv, hfound, hupd, issueTokensAndQueueSession]

/-- Witness for C3: a fresh login against an empty store. -/
theorem authWithTelegram_result_independent_of_persistence_witness :
    ∃ toks : Tokens, ∀ accepted : Bool,
      (AuthWithTelegram sampleAuth { users := [], sessions := [] }
        { sigValid := true, parseOk := true,
          user := some { id := 42, firstName := "A", lastName := "B", username := "ab",
                         photoURL := "p" },
          authDate := 10 }
        "ua" "1.2.3.4" { now := 10, freshUserId := 1, freshSessionId := 2, freshJti := 3 }
        accepted).result = .ok toks :=
  authWithTelegram_result_independent_of_persistence sampleAuth
    { users := [], sessions := [] }
    { sigValid := true, parseOk := true,
      user := some { id := 42, firstName := "A", lastName := "B", username := "ab",
                     photoURL := "p" },
      authDate := 10 }
    "ua" "1.2.3.4" { now := 10, freshUserId := 1, freshSessionId := 2, freshJti := 3 }
    { ID := 42, FirstName := "A", LastName := "B", Username := "ab", PhotoURL := "p",
      AuthDate := 10 }
    (by decide)
    (.inl ⟨by decide, { users := [NewUser 1 42 "ab" "A" "B" "p" 10 10], sessions := [] },
      by decide⟩)

/-- Claim C7: a login with an external identity absent from the store
creates exactly one `User` row (appended, with the fresh internal
identifier), and a second login with the same external identity and
changed display fields updates that same row in place — same internal
identifier, display fields overwritten, `updated_at` refreshed — creating
no second row. -/
theorem login_creates_then_updates_single_user
    (a : TelegramAuth) (db0 : DB) (d1 d2 : InitData) (tu1 tu2 : TelegramUser)
    (ua1 ip1 ua2 ip2 : String) (e1 e2 : Env) (acc1 acc2 : Bool)
    (hv1 : ValidateInitData a d1 = .ok tu1)
    (hv2 : ValidateInitData a d2 = .ok tu2)
    (hsame : tu2.ID = tu1.ID)
    (hnew : ∀ x ∈ db0.users, x.TelegramID ≠ tu1.ID)
    (hfresh : ∀ x ∈ db0.users, x.ID ≠ e1.freshUserId) :
    (∃ toks1, (AuthWithTelegram a db0 d1 ua1 ip1 e1 acc1).result = .ok toks1) ∧
    (AuthWithTelegram a db0 d1 ua1 ip1 e1 acc1).db =
      { db0 with
          users := db0.users ++
            [NewUser e1.freshUserId tu1.ID tu1.Username tu1.FirstName tu1.LastName
              tu1.PhotoURL tu1.AuthDate e1.now] } ∧
    (∃ toks2,
      (AuthWithTelegram a
        { db0 with
            users := db0.users ++
              [NewUser e1.freshUserId tu1.ID tu1.Username tu1.FirstName tu1.LastName
                tu1.PhotoURL tu1.AuthDate e1.now] }
        d2 ua2 ip2 e2 acc2).result = .ok toks2) ∧
    (AuthWithTelegram a
      { db0 with
          users := db0.users ++
            [NewUser e1.freshUserId tu1.ID tu1.Username tu1.FirstName tu1.LastName
              tu1.PhotoURL tu1.AuthDate e1.now] }
      d2 ua2 ip2 e2 acc2).db =
    { db0 with
        users := db0.users ++
          [{ NewUser e1.freshUserId tu1.ID tu1.Username tu1.FirstName tu1.LastName
               tu1.PhotoURL tu1.AuthDate e1.now with
               Username := tu2.Username, FirstName := tu2.FirstName,
               LastName := tu2.LastName, PhotoURL := tu2.PhotoURL,
               AuthDate := tu2.AuthDate, UpdatedAt := e2.now }] } := by
  have hfind0 : db0.users.find? (fun x => x.TelegramID == tu1.ID) = none := by
    rw [List.find?_eq_none]
    intro x hx
    simpa using hnew x hx
  have hget0 : getByTelegramID db0 tu1.ID = .error .userNotFound := by
    simp [getByTelegramID, hfind0]
  have hany0 : db0.users.any (fun x =>
      x.ID == (NewUser e1.freshUserId tu1.ID tu1.Username tu1.FirstName tu1.LastName
        tu1.PhotoURL tu1.AuthDate e1.now).ID ||
      x.TelegramID == (NewUser e1.freshUserId tu1.ID tu1.Username tu1.FirstName tu1.LastName
        tu1.PhotoURL tu1.AuthDate e1.now).TelegramID) = false := by
    rw [List.any_eq_false]
    intro x hx
    simp only [NewUser, Bool.or_eq_true, beq_iff_eq]
    push_neg
    exact ⟨hfresh x hx, hnew x hx⟩
  have hcr : createUser db0
      (NewUser e1.freshUserId tu1.ID tu1.Username tu1.FirstName tu1.LastName tu1.PhotoURL
        tu1.AuthDate e1.now) =
      .ok { db0 with
              users := db0.users ++
                [NewUser e1.freshUserId tu1.ID tu1.Username tu1.FirstName tu1.LastName
                  tu1.PhotoURL tu1.AuthDate e1.now] } := by
    simp [createUser, hany0]
  refine ⟨⟨GenerateTokens a
      (NewUser e1.freshUserId tu1.ID tu1.Username tu1.FirstName tu1.LastName tu1.PhotoURL
        tu1.AuthDate e1.now).ID
      (NewUser e1.freshUserId tu1.ID tu1.Username tu1.FirstName tu1.LastName tu1.PhotoURL
        tu1.AuthDate e1.now).TelegramID
      e1.freshJti e1.now, ?_⟩, ?_, ?_⟩
  · simp [AuthWithTelegram, hv1, hget0, hcr, issueTokensAndQueueSession]
  · simp [AuthWithTelegram, hv1, hget0, hcr, issueTokensAndQueueSession]
  -- second login
  have hfind1 :
      (db0.users ++
        [NewUser e1.freshUserId tu1.ID tu1.Username tu1.FirstName tu1.LastName tu1.PhotoURL
          tu1.AuthDate e1.now]).find? (fun x => x.TelegramID == tu2.ID) =
      some (NewUser e1.freshUserId tu1.ID tu1.Username tu1.FirstName tu1.LastName tu1.PhotoURL
        tu1.AuthDate e1.now) := by
    rw [List.find?_append]
    have hleft : db0.users.find? (fun x => x.TelegramID == tu2.ID) = none := by
      rw [List.find?_eq_none]
      intro x hx
      rw [hsame]
      simpa using hnew x hx
    rw [hleft]
    simp [NewUser, hsame]
  have hget1 : getByTelegramID
      { db0 with
          users := db0.users ++
            [NewUser e1.freshUserId tu1.ID tu1.Username tu1.FirstName tu1.LastName
              tu1.PhotoURL tu1.AuthDate e1.now] }
      tu2.ID =
      .ok (NewUser e1.freshUserId tu1.ID tu1.Username tu1.FirstName tu1.LastName tu1.PhotoURL
        tu1.AuthDate e1.now) := by
    simp only [getByTelegramID]
    rw [hfind1]
  have hany1 : (db0.users ++
      [NewUser e1.freshUserId tu1.ID tu1.Username tu1.FirstName tu1.LastName tu1.PhotoURL
        tu1.AuthDate e1.now]).any (fun x =>
      x.ID == ({ NewUser e1.freshUserId tu1.ID tu1.Username tu1.FirstName tu1.LastName
                   tu1.PhotoURL tu1.AuthDate e1.now with
                   Username := tu2.Username, FirstName := tu2.FirstName,
                   LastName := tu2.LastName, PhotoURL := tu2.PhotoURL,
                   AuthDate := tu2.AuthDate } : User).ID) = true := by
    rw [List.any_eq_true]
    exact ⟨NewUser e1.freshUserId tu1.ID tu1.Username tu1.FirstName tu1.LastName tu1.PhotoURL
      tu1.AuthDate e1.now, by simp, by simp⟩
  have hid2 : ∀ x ∈ db0.users, (fun x : User =>
      if x.ID == ({ NewUser e1.freshUserId tu1.ID tu1.Username tu1.FirstName tu1.LastName
                      tu1.PhotoURL tu1.AuthDate e1.now with
                      Username := tu2.Username, FirstName := tu2.FirstName,
                      LastName := tu2.LastName, PhotoURL := tu2.PhotoURL,
                      AuthDate := tu2.AuthDate } : User).ID then
        { x with
            Username := ({ NewUser e1.freshUserId tu1.ID tu1.Username tu1.FirstName
                             tu1.LastName tu1.PhotoURL tu1.AuthDate e1.now with
                             Username := tu2.Username, FirstName := tu2.FirstName,
                             LastName := tu2.LastName, PhotoURL := tu2.PhotoURL,
                             AuthDate := tu2.AuthDate } : User).Username
            FirstName := ({ NewUser e1.freshUserId tu1.ID tu1.Username tu1.FirstName
                              tu1.LastName tu1.PhotoURL tu1.AuthDate e1.now with
                              Username := tu2.Username, FirstName := tu2.FirstName,
                              LastName := tu2.LastName, PhotoURL := tu2.PhotoURL,
                              AuthDate := tu2.AuthDate } : User).FirstName
            LastName := ({ NewUser e1.freshUserId tu1.ID tu1.Username tu1.FirstName
                             tu1.LastName tu1.PhotoURL tu1.AuthDate e1.now with
                             Username := tu2.Username, FirstName := tu2.FirstName,
                             LastName := tu2.LastName, PhotoURL := tu2.PhotoURL,
                             AuthDate := tu2.AuthDate } : User).LastName
            PhotoURL := ({ NewUser e1.freshUserId tu1.ID tu1.Username tu1.FirstName
                             tu1.LastName tu1.PhotoURL tu1.AuthDate e1.now with
                             Username := tu2.Username, FirstName := tu2.FirstName,
                             LastName := tu2.LastName, PhotoURL := tu2.PhotoURL,
                             AuthDate := tu2.AuthDate } : User).PhotoURL
            AuthDate := ({ NewUser e1.freshUserId tu1.ID tu1.Username tu1.FirstName
                             tu1.LastName tu1.PhotoURL tu1.AuthDate e1.now with
                             Username := tu2.Username, FirstName := tu2.FirstName,
                             LastName := tu2.LastName, PhotoURL := tu2.PhotoURL,
                             AuthDate := tu2.AuthDate } : User).AuthDate
            UpdatedAt := e2.now }
      else x) x = id x := by
    intro x hx
    have hxid : (x.ID == ({ NewUser e1.freshUserId tu1.ID tu1.Username tu1.FirstName
        tu1.LastName tu1.PhotoURL tu1.AuthDate e1.now with
        Username := tu2.Username, FirstName := tu2.FirstName,
        LastName := tu2.LastName, PhotoURL := tu2.PhotoURL,
        AuthDate := tu2.AuthDate } : User).ID) = false := by
      simp only [NewUser, beq_eq_false_iff_ne, ne_eq]
      exact hfresh x hx
    simp only [hxid, Bool.false_eq_true, if_false, id_eq]
  have hupd : updateUser
      { db0 with
          users := db0.users ++
            [NewUser e1.freshUserId tu1.ID tu1.Username tu1.FirstName tu1.LastName
              tu1.PhotoURL tu1.AuthDate e1.now] }
      ({ NewUser e1.freshUserId tu1.ID tu1.Username tu1.FirstName tu1.LastName tu1.PhotoURL
           tu1.AuthDate e1.now with
           Username := tu2.Username, FirstName := tu2.FirstName,
           LastName := tu2.LastName, PhotoURL := tu2.PhotoURL,
           AuthDate := tu2.AuthDate } : User)
      e2.now =
      .ok { db0 with
              users := db0.users ++
                [{ NewUser e1.freshUserId tu1.ID tu1.Username tu1.FirstName tu1.LastName
                     tu1.PhotoURL tu1.AuthDate e1.now with
                     Username := tu2.Username, FirstName := tu2.FirstName,
                     LastName := tu2.LastName, PhotoURL := tu2.PhotoURL,
                     AuthDate := tu2.AuthDate, UpdatedAt := e2.now }] } := by
    unfold updateUser
    rw [hany1, if_pos rfl, List.map_append, List.map_congr_left hid2, List.map_id]
    simp [NewUser]
  have hcall2 : AuthWithTelegram a
      { db0 with
          users := db0.users ++
            [NewUser e1.freshUserId tu1.ID tu1.Username tu1.FirstName tu1.LastName
              tu1.PhotoURL tu1.AuthDate e1.now] }
      d2 ua2 ip2 e2 acc2 =
      issueTokensAndQueueSession a
        { db0 with
            users := db0.users ++
              [{ NewUser e1.freshUserId tu1.ID tu1.Username tu1.FirstName tu1.LastName
                   tu1.PhotoURL tu1.AuthDate e1.now with
                   Username := tu2.Username, FirstName := tu2.FirstName,
                   LastName := tu2.LastName, PhotoURL := tu2.PhotoURL,
                   AuthDate := tu2.AuthDate, UpdatedAt := e2.now }] }
        ({ NewUser e1.freshUserId tu1.ID tu1.Username tu1.FirstName tu1.LastName tu1.PhotoURL
             tu1.AuthDate e1.now with
             Username := tu2.Username, FirstName := tu2.FirstName,
             LastName := tu2.LastName, PhotoURL := tu2.PhotoURL,
             AuthDate := tu2.AuthDate } : User).ID
        ({ NewUser e1.freshUserId tu1.ID tu1.Username tu1.FirstName tu1.LastName tu1.PhotoURL
             tu1.AuthDate e1.now with
             Username := tu2.Username, FirstName := tu2.FirstName,
             LastName := tu2.LastName, PhotoURL := tu2.PhotoURL,
             AuthDate := tu2.AuthDate } : User).TelegramID
        ua2 ip2 e2 acc2 := by
    unfold AuthWithTelegram
    rw [hv2]
    dsimp only
    rw [hget1]
    dsimp only
    rw [hupd]
  refine ⟨⟨GenerateTokens a
      ({ NewUser e1.freshUserId tu1.ID tu1.Username tu1.FirstName tu1.LastName tu1.PhotoURL
           tu1.AuthDate e1.now with
           Username := tu2.Username, FirstName := tu2.FirstName,
           LastName := tu2.LastName, PhotoURL := tu2.PhotoURL,
           AuthDate := tu2.AuthDate } : User).ID
      ({ NewUser e1.freshUserId tu1.ID tu1.Username tu1.FirstName tu1.LastName tu1.PhotoURL
           tu1.AuthDate e1.now with
           Username := tu2.Username, FirstName := tu2.FirstName,
           LastName := tu2.LastName, PhotoURL := tu2.PhotoURL,
           AuthDate := tu2.AuthDate } : User).TelegramID
      e2.freshJti e2.now, ?_⟩, ?_⟩
  · rw [hcall2]
    rfl
  · rw [hcall2]
    rfl

/-- First-login payload for the C7 witness. -/
def loginD1 : InitData :=
  { sigValid := true, parseOk := true
    user := some { id := 42, firstName := "A", lastName := "B", username := "ab",
                   photoURL := "p" }
    authDate := 10 }

/-- Second-login payload for the C7 witness: same external identity, all
display fields changed. -/
def loginD2 : InitData :=
  { sigValid := true, parseOk := true
    user := some { id := 42, firstName := "X", lastName := "Y", username := "xy",
                   photoURL := "q" }
    authDate := 20 }

/-- Identity extracted from `loginD1`. -/
def loginTu1 : TelegramUser :=
  { ID := 42, FirstName := "A", LastName := "B", Username := "ab", PhotoURL := "p",
    AuthDate := 10 }

/-- Identity extracted from `loginD2`. -/
def loginTu2 : TelegramUser :=
  { ID := 42, FirstName := "X", LastName := "Y", Username := "xy", PhotoURL := "q",
    AuthDate := 20 }

/-- Environment of the first login in the C7 witness. -/
def loginEnv1 : Env := { now := 10, freshUserId := 1, freshSessionId := 2, freshJti := 3 }

/-- Environment of the second login in the C7 witness. -/
def loginEnv2 : Env := { now := 20, freshUserId := 4, freshSessionId := 5, freshJti := 6 }

/-- The empty store. -/
def emptyDB : DB := { users := [], sessions := [] }

/-- The single user row the first login of the C7 witness creates. -/
def loginUser1 : User := NewUser 1 42 "ab" "A" "B" "p" 10 10

/-- That row after the second login overwrote the display fields. -/
def loginUser2 : User :=
  { loginUser1 with
      Username := "xy", FirstName := "X", LastName := "Y", PhotoURL := "q",
      AuthDate := 20, UpdatedAt := 20 }

/-- Witness for C7: first login against the empty store creates exactly the
one row `loginUser1`; the second login updates it in place to `loginUser2`
and adds nothing. -/
theorem login_creates_then_updates_single_user_witness :
    (∃ toks1, (AuthWithTelegram sampleAuth emptyDB loginD1 "ua" "ip" loginEnv1 true).result
      = .ok toks1) ∧
    (AuthWithTelegram sampleAuth emptyDB loginD1 "ua" "ip" loginEnv1 true).db =
      { users := [loginUser1], sessions := [] } ∧
    (∃ toks2, (AuthWithTelegram sampleAuth { users := [loginUser1], sessions := [] } loginD2
      "ua2" "ip2" loginEnv2 true).result = .ok toks2) ∧
    (AuthWithTelegram sampleAuth { users := [loginUser1], sessions := [] } loginD2
      "ua2" "ip2" loginEnv2 true).db = { users := [loginUser2], sessions := [] } :=
  login_creates_then_updates_single_user sampleAuth emptyDB loginD1 loginD2 loginTu1 loginTu2
    "ua" "ip" "ua2" "ip2" loginEnv1 loginEnv2 true true
    (by decide) (by decide) (by decide) (by decide) (by decide)

/-- Claim C1: refresh tokens are single-use. A successful `RefreshTokens`
call on token `t` (the store holding exactly one session row for `t`,
owned by the token's user) returns a fresh pair, deletes `t`'s session
row, and queues the new session write; afterwards a replay of `t` (still
passing stateless validation) fails with `ErrInvalidToken`, while once the
queued session row has landed, the newly issued refresh token succeeds. -/
theorem refreshTokens_single_use
    (a : TelegramAuth) (db0 : DB) (t : TokenStr) (usr : User) (sess : Session)
    (ua1 ip1 ua2 ip2 ua3 ip3 : String) (e1 e2 e3 : Env) (acc2 acc3 : Bool)
    (h1 : ValidateRefreshToken a t e1.now = .ok (.canonical usr.ID))
    (h2 : db0.sessions.filter (fun s => s.RefreshToken == t) = [sess])
    (h3 : sess.UserID = usr.ID)
    (h4 : db0.users.find? (fun x => x.ID == usr.ID) = some usr)
    (h6 : ∀ s ∈ db0.sessions,
      s.RefreshToken ≠ .jwt (generateRefreshToken a usr.ID e1.freshJti e1.now))
    (hA : ValidateRefreshToken a t e2.now = .ok (.canonical usr.ID))
    (h8 : e3.now ≤ e1.now + a.cfg.RefreshTTL)
    (h9 : ∀ s ∈ db0.sessions, s.ID ≠ e1.freshSessionId) :
    RefreshTokens a db0 t ua1 ip1 e1 true =
      { result := .ok (GenerateTokens a usr.ID usr.TelegramID e1.freshJti e1.now)
        db := { db0 with sessions := db0.sessions.filter (fun s => s.ID != sess.ID) }
        pending := some (NewSession e1.freshSessionId usr.ID
          (.jwt (generateRefreshToken a usr.ID e1.freshJti e1.now)) ua1 ip1
          a.cfg.RefreshTTL e1.now) } ∧
    (RefreshTokens a { db0 with sessions := db0.sessions.filter (fun s => s.ID != sess.ID) }
      t ua2 ip2 e2 acc2).result = .error .ErrInvalidToken ∧
    ∃ toks2,
      (RefreshTokens a
        (runPendingSession
          { db0 with sessions := db0.sessions.filter (fun s => s.ID != sess.ID) }
          (some (NewSession e1.freshSessionId usr.ID
            (.jwt (generateRefreshToken a usr.ID e1.freshJti e1.now)) ua1 ip1
            a.cfg.RefreshTTL e1.now)))
        (.jwt (generateRefreshToken a usr.ID e1.freshJti e1.now)) ua3 ip3 e3 acc3).result
      = .ok toks2 := by
  have hfind : db0.sessions.find? (fun s => s.RefreshToken == t) = some sess :=
    find?_of_filter_eq_singleton _ _ _ h2
  have hget : getSessionByToken db0 t = .ok sess := by
    simp only [getSessionByToken]
    rw [hfind]
  have hmem : sess ∈ db0.sessions := mem_of_filter_eq_singleton _ _ _ h2
  have hanyid : db0.sessions.any (fun s => s.ID == sess.ID) = true := by
    rw [List.any_eq_true]
    exact ⟨sess, hmem, by simp⟩
  have hdel : deleteSession db0 sess.ID =
      .ok { db0 with sessions := db0.sessions.filter (fun s => s.ID != sess.ID) } := by
    unfold deleteSession
    rw [hanyid, if_pos rfl]
  have hgetu : getByID db0 usr.ID = .ok usr := by
    simp only [getByID]
    rw [h4]
  have hcall1 : RefreshTokens a db0 t ua1 ip1 e1 true =
      issueTokensAndQueueSession a
        { db0 with sessions := db0.sessions.filter (fun s => s.ID != sess.ID) }
        usr.ID usr.TelegramID ua1 ip1 e1 true := by
    unfold RefreshTokens
    rw [h1]
    dsimp only [uuidParse]
    rw [hget]
    dsimp only
    rw [if_neg (show ¬ ((sess.UserID != usr.ID) = true) by simp [h3])]
    rw [hgetu]
    dsimp only
    rw [hdel]
  refine ⟨?_, ?_, ?_⟩
  · rw [hcall1]
    rfl
  · have hfind2 : ((db0.sessions.filter (fun s => s.ID != sess.ID)).find?
        (fun s => s.RefreshToken == t)) = none := by
      rw [List.find?_eq_none]
      intro x hx
      obtain ⟨hx0, hxid⟩ := List.mem_filter.mp hx
      intro hrt
      have hxs : x = sess :=
        eq_of_pred_of_filter_eq_singleton _ _ _ _ h2 hx0 (by simpa using hrt)
      rw [hxs] at hxid
      simp at hxid
    have hget2 : getSessionByToken
        { db0 with sessions := db0.sessions.filter (fun s => s.ID != sess.ID) } t =
        .error .sessionNotFound := by
      simp only [getSessionByToken]
      rw [hfind2]
    unfold RefreshTokens
    rw [hA]
    dsimp only [uuidParse]
    rw [hget2]
  · have hanyns : ((db0.sessions.filter (fun s => s.ID != sess.ID)).any
        (fun x => x.ID == (NewSession e1.freshSessionId usr.ID
          (.jwt (generateRefreshToken a usr.ID e1.freshJti e1.now)) ua1 ip1
          a.cfg.RefreshTTL e1.now).ID)) = false := by
      rw [List.any_eq_false]
      intro x hx
      obtain ⟨hx0, _⟩ := List.mem_filter.mp hx
      simp [NewSession, h9 x hx0]
    have hcs : createSession
        { db0 with sessions := db0.sessions.filter (fun s => s.ID != sess.ID) }
        (NewSession e1.freshSessionId usr.ID
          (.jwt (generateRefreshToken a usr.ID e1.freshJti e1.now)) ua1 ip1
          a.cfg.RefreshTTL e1.now) =
        .ok { db0 with sessions := db0.sessions.filter (fun s => s.ID != sess.ID) ++
          [NewSession e1.freshSessionId usr.ID
            (.jwt (generateRefreshToken a usr.ID e1.freshJti e1.now)) ua1 ip1
            a.cfg.RefreshTTL e1.now] } := by
      unfold createSession
      rw [if_neg]
      intro hc
      rw [hanyns] at hc
      exact Bool.false_ne_true hc
    have hrun : runPendingSession
        { db0 with sessions := db0.sessions.filter (fun s => s.ID != sess.ID) }
        (some (NewSession e1.freshSessionId usr.ID
          (.jwt (generateRefreshToken a usr.ID e1.freshJti e1.now)) ua1 ip1
          a.cfg.RefreshTTL e1.now)) =
        { db0 with sessions := db0.sessions.filter (fun s => s.ID != sess.ID) ++
          [NewSession e1.freshSessionId usr.ID
            (.jwt (generateRefreshToken a usr.ID e1.freshJti e1.now)) ua1 ip1
            a.cfg.RefreshTTL e1.now] } := by
      unfold runPendingSession
      dsimp only
      rw [hcs]
    have hexp3 : ¬ (e1.now + a.cfg.RefreshTTL < e3.now) := by omega
    have hval3 : ValidateRefreshToken a
        (.jwt (generateRefreshToken a usr.ID e1.freshJti e1.now)) e3.now =
        .ok (.canonical usr.ID) := by
      simp [ValidateRefreshToken, jwtParse, generateRefreshToken, Alg.isHMAC, hexp3]
    have hfind3 : ((db0.sessions.filter (fun s => s.ID != sess.ID) ++
        [NewSession e1.freshSessionId usr.ID
          (.jwt (generateRefreshToken a usr.ID e1.freshJti e1.now)) ua1 ip1
          a.cfg.RefreshTTL e1.now]).find?
        (fun s => s.RefreshToken ==
          .jwt (generateRefreshToken a usr.ID e1.freshJti e1.now))) =
        some (NewSession e1.freshSessionId usr.ID
          (.jwt (generateRefreshToken a usr.ID e1.freshJti e1.now)) ua1 ip1
          a.cfg.RefreshTTL e1.now) := by
      rw [List.find?_append]
      have hleft : ((db0.sessions.filter (fun s => s.ID != sess.ID)).find?
          (fun s => s.RefreshToken ==
            .jwt (generateRefreshToken a usr.ID e1.freshJti e1.now))) = none := by
        rw [List.find?_eq_none]
        intro x hx
        obtain ⟨hx0, _⟩ := List.mem_filter.mp hx
        simpa using h6 x hx0
      rw [hleft]
      simp [NewSession]
    have hget3 : getSessionByToken
        { db0 with sessions := db0.sessions.filter (fun s => s.ID != sess.ID) ++
          [NewSession e1.freshSessionId usr.ID
            (.jwt (generateRefreshToken a usr.ID e1.freshJti e1.now)) ua1 ip1
            a.cfg.RefreshTTL e1.now] }
        (.jwt (generateRefreshToken a usr.ID e1.freshJti e1.now)) =
        .ok (NewSession e1.freshSessionId usr.ID
          (.jwt (generateRefreshToken a usr.ID e1.freshJti e1.now)) ua1 ip1
          a.cfg.RefreshTTL e1.now) := by
      simp only [getSessionByToken]
      rw [hfind3]
    have hgetu3 : getByID
        { db0 with sessions := db0.sessions.filter (fun s => s.ID != sess.ID) ++
          [NewSession e1.freshSessionId usr.ID
            (.jwt (generateRefreshToken a usr.ID e1.freshJti e1.now)) ua1 ip1
            a.cfg.RefreshTTL e1.now] }
        usr.ID = .ok usr := by
      simp only [getByID]
      rw [h4]
    have hany3 : ((db0.sessions.filter (fun s => s.ID != sess.ID) ++
        [NewSession e1.freshSessionId usr.ID
          (.jwt (generateRefreshToken a usr.ID e1.freshJti e1.now)) ua1 ip1
          a.cfg.RefreshTTL e1.now]).any
        (fun s => s.ID == (NewSession e1.freshSessionId usr.ID
          (.jwt (generateRefreshToken a usr.ID e1.freshJti e1.now)) ua1 ip1
          a.cfg.RefreshTTL e1.now).ID)) = true := by
      rw [List.any_eq_true]
      exact ⟨NewSession e1.freshSessionId usr.ID
        (.jwt (generateRefreshToken a usr.ID e1.freshJti e1.now)) ua1 ip1
        a.cfg.RefreshTTL e1.now, by simp, by simp⟩
    have hdel3 : deleteSession
        { db0 with sessions := db0.sessions.filter (fun s => s.ID != sess.ID) ++
          [NewSession e1.freshSessionId usr.ID
            (.jwt (generateRefreshToken a usr.ID e1.freshJti e1.now)) ua1 ip1
            a.cfg.RefreshTTL e1.now] }
        (NewSession e1.freshSessionId usr.ID
          (.jwt (generateRefreshToken a usr.ID e1.freshJti e1.now)) ua1 ip1
          a.cfg.RefreshTTL e1.now).ID =
        .ok { db0 with
                sessions :=
                  (db0.sessions.filter (fun s => s.ID != sess.ID) ++
                    [NewSession e1.freshSessionId usr.ID
                      (.jwt (generateRefreshToken a usr.ID e1.freshJti e1.now)) ua1 ip1
                      a.cfg.RefreshTTL e1.now]).filter
                    (fun s => s.ID != (NewSession e1.freshSessionId usr.ID
                      (.jwt (generateRefreshToken a usr.ID e1.freshJti e1.now)) ua1 ip1
                      a.cfg.RefreshTTL e1.now).ID) } := by
      unfold deleteSession
      rw [hany3, if_pos rfl]
    refine ⟨GenerateTokens a usr.ID usr.TelegramID e3.freshJti e3.now, ?_⟩
    rw [hrun]
    unfold RefreshTokens
    rw [hval3]
    dsimp only [uuidParse]
    rw [hget3]
    dsimp only
    rw [if_neg (show ¬ (((NewSession e1.freshSessionId usr.ID
      (.jwt (generateRefreshToken a usr.ID e1.freshJti e1.now)) ua1 ip1
      a.cfg.RefreshTTL e1.now).UserID != usr.ID) = true) by simp [NewSession])]
    rw [hgetu3]
    dsimp only
    rw [hdel3]
    rfl

/-- The user row of the C1 witness. -/
def rtUser : User :=
  { ID := 7, TelegramID := 42, Username := "old", FirstName := "A", LastName := "B",
    PhotoURL := "p", AuthDate := 0, CreatedAt := 0, UpdatedAt := 0 }

/-- The refresh token consumed in the C1 witness, issued at time −10 with
`jti` 99. -/
def rtToken : TokenStr := .jwt (generateRefreshToken sampleAuth 7 99 (-10))

/-- The session row backing `rtToken`. -/
def rtSession : Session :=
  { ID := 5, UserID := 7, RefreshToken := rtToken, UserAgent := "ua", IPAddress := "ip",
    ExpiresAt := 604790, CreatedAt := -10, UpdatedAt := -10 }

/-- The store of the C1 witness: one user, one session. -/
def rtDB : DB := { users := [rtUser], sessions := [rtSession] }

/-- Environment of the first refresh in the C1 witness. -/
def rtEnv1 : Env := { now := 0, freshUserId := 1, freshSessionId := 11, freshJti := 100 }

/-- Environment of the replayed refresh in the C1 witness. -/
def rtEnv2 : Env := { now := 1, freshUserId := 2, freshSessionId := 12, freshJti := 101 }

/-- Environment of the refresh with the newly issued token in the C1
witness. -/
def rtEnv3 : Env := { now := 2, freshUserId := 3, freshSessionId := 13, freshJti := 102 }

/-- Witness for C1 at a concrete store, token and time line. -/
theorem refreshTokens_single_use_witness :
    RefreshTokens sampleAuth rtDB rtToken "u1" "i1" rtEnv1 true =
      { result := .ok (GenerateTokens sampleAuth rtUser.ID rtUser.TelegramID
          rtEnv1.freshJti rtEnv1.now)
        db := { rtDB with sessions := rtDB.sessions.filter (fun s => s.ID != rtSession.ID) }
        pending := some (NewSession rtEnv1.freshSessionId rtUser.ID
          (.jwt (generateRefreshToken sampleAuth rtUser.ID rtEnv1.freshJti rtEnv1.now))
          "u1" "i1" sampleAuth.cfg.RefreshTTL rtEnv1.now) } ∧
    (RefreshTokens sampleAuth
      { rtDB with sessions := rtDB.sessions.filter (fun s => s.ID != rtSession.ID) }
      rtToken "u2" "i2" rtEnv2 true).result = .error .ErrInvalidToken ∧
    ∃ toks2,
      (RefreshTokens sampleAuth
        (runPendingSession
          { rtDB with sessions := rtDB.sessions.filter (fun s => s.ID != rtSession.ID) }
          (some (NewSession rtEnv1.freshSessionId rtUser.ID
            (.jwt (generateRefreshToken sampleAuth rtUser.ID rtEnv1.freshJti rtEnv1.now))
            "u1" "i1" sampleAuth.cfg.RefreshTTL rtEnv1.now)))
        (.jwt (generateRefreshToken sampleAuth rtUser.ID rtEnv1.freshJti rtEnv1.now))
        "u3" "i3" rtEnv3 true).result = .ok toks2 :=
  refreshTokens_single_use sampleAuth rtDB rtToken rtUser rtSession "u1" "i1" "u2" "i2"
    "u3" "i3" rtEnv1 rtEnv2 rtEnv3 true true (by decide) (by decide) (by decide) (by decide)
    (by decide) (by decide) (by decide) (by decide)

end Renfound
